import Mathlib

/-!
Shallow embedding of the Supabase-to-CSV synchronisation script
(`extract.py`): key parsers, enrichment, pagination loop and the
entry point, together with theorems about the behaviour each part
exhibits.

Strings are modelled as Lean `String`s (lists of characters); Python
slicing `s[a:b]` becomes `take`/`drop` on `s.toList`; JSON-style cell
values are modelled by the inductive type `Value`; `dict.get` becomes
association-list lookup.
-/

namespace Extract

/-- Model of a JSON-style cell value as held in a fetched row. -/
inductive Value where
  | null : Value
  | bool : Bool → Value
  | int : Int → Value
  | str : String → Value
  deriving DecidableEq

/-- Python truthiness (`bool(v)`) on modelled values: `None` and the
falsy primitives are false, everything else true. -/
def pyTruthy : Value → Bool
  | Value.null => false
  | Value.bool b => b
  | Value.int n => n != 0
  | Value.str s => s != ""

/-- Python `str.isdigit()` restricted to the ASCII-digit fragment: the
string is non-empty and every character is a decimal digit. -/
def pyIsDigit (l : List Char) : Bool :=
  !l.isEmpty && l.all Char.isDigit

/-- Python `int(...)` applied to a string of decimal digits. -/
def digitsVal (l : List Char) : Nat :=
  l.foldl (fun n c => n * 10 + (c.toNat - 48)) 0

/-- Model of `extrair_info_volume` (extract.py lines 19-32): when the key
has at least 6 characters and the trailing 6 are digits, return the base
prefix, the value of the first 3 trailing digits and the value of the
last 3; otherwise `none`. -/
def extrair_info_volume (chave : String) : Option (String × Nat × Nat) :=
  let l := chave.toList
  if l.length < 6 then none
  else
    let sufixo := l.drop (l.length - 6)
    if !pyIsDigit sufixo then none
    else
      let vol_atual := digitsVal (sufixo.take 3)
      let total_vol := digitsVal (sufixo.drop 3)
      let base := (l.take (l.length - 6)).asString
      some (base, vol_atual, total_vol)

/-- Model of `extrair_nf_cnpj` (extract.py lines 35-43): when the key has
at least 26 characters and both the `[0,9)` and `[12,26)` slices are all
digits, return those two slices; otherwise `none` (the Python value
`(None, None)`). -/
def extrair_nf_cnpj (chave : String) : Option (String × String) :=
  let l := chave.toList
  if l.length < 26 then none
  else
    let nf := (l.take 9).asString
    let cnpj := ((l.drop 12).take 14).asString
    if !pyIsDigit nf.toList || !pyIsDigit cnpj.toList then none
    else some (nf, cnpj)

/-- Model of `formatar_cnpj` (extract.py lines 46-50): a 14-character
input is rendered as `XX.XXX.XXX/XXXX-XX`; anything else (including the
empty string) is returned unchanged. -/
def formatar_cnpj (cnpj : String) : String :=
  if cnpj = "" ∨ cnpj.length ≠ 14 then cnpj
  else
    let l := cnpj.toList
    (l.take 2).asString ++ "." ++ ((l.drop 2).take 3).asString ++ "." ++
      ((l.drop 5).take 3).asString ++ "/" ++ ((l.drop 8).take 4).asString ++
      "-" ++ (l.drop 12).asString


/-- A fetched row, modelled as an ordered association list from column
name to value (a Python `dict` as returned by the backend). -/
def RawRow := List (String × Value)

instance : DecidableEq RawRow := by
  unfold RawRow
  infer_instance

/-- Python `row.get(k)`: first value bound to `k`, if any. -/
def rawGet (row : RawRow) (k : String) : Option Value :=
  List.lookup k row

/-- The key string the enricher works on: `row.get("CHAVE_NF", "")`. -/
def rowChave (row : RawRow) : Value :=
  (rawGet row "CHAVE_NF").getD (Value.str "")

/-- Branch of `enriquecer_dados` (extract.py lines 184-198) choosing which
parsers to run from the key length: 27 means opaque label (nothing
parsed), 48 means run both parsers, anything else parses nothing. -/
def parseCampos (chave : String) :
    Option String × Option String × Option (String × Nat × Nat) :=
  if chave.length = 27 then (none, none, none)
  else if chave.length = 48 then
    match extrair_nf_cnpj chave with
    | some p => (some p.1, some p.2, extrair_info_volume chave)
    | none => (none, none, extrair_info_volume chave)
  else (none, none, none)

/-- Python `v if v else "N/A"` on an optional string. -/
def valueOrNA : Option String → Value
  | some s => if s = "" then Value.str "N/A" else Value.str s
  | none => Value.str "N/A"

/-- Output dict built by `enriquecer_dados` (extract.py lines 200-212)
for a row whose key string is `chave`, as an ordered association list. -/
def enrichedRec (row : RawRow) (chave : String) : List (String × Value) :=
  [
    ("OF", (rawGet row "OF").getD Value.null),
    ("CHAVE_NF", Value.str chave),
    ("NF", valueOrNA (parseCampos chave).1),
    ("CNPJ", valueOrNA (parseCampos chave).2.1),
    ("CNPJ_Formatado",
      match (parseCampos chave).2.1 with
      | some c => if c = "" then Value.str "N/A" else Value.str (formatar_cnpj c)
      | none => Value.str "N/A"),
    ("Volume_Atual",
      match (parseCampos chave).2.2 with
      | some iv => Value.int (Int.ofNat iv.2.1)
      | none => Value.null),
    ("Total_Volumes",
      match (parseCampos chave).2.2 with
      | some iv => Value.int (Int.ofNat iv.2.2)
      | none => Value.null),
    ("Base_NF",
      match (parseCampos chave).2.2 with
      | some iv => Value.str iv.1
      | none => Value.null),
    ("Bipado_em", (rawGet row "bipado_em").getD Value.null),
    ("Removido_em", (rawGet row "removido_em").getD Value.null),
    ("Inclusao_Manual",
      Value.bool (pyTruthy ((rawGet row "INCLUSAO_MANUAL").getD (Value.bool false))))
  ]

/-- Model of the per-row work of `enriquecer_dados` (extract.py lines
181-212). The result is `none` when `row.get("CHAVE_NF", "")` is not a
string, in which case the Python call `len(chave)` raises a `TypeError`. -/
def enriquecerRow (row : RawRow) : Option (List (String × Value)) :=
  match rowChave row with
  | Value.str chave => some (enrichedRec row chave)
  | _ => none

/-- Model of `enriquecer_dados` over the whole fetched dataset: enrich
each row in order; a `TypeError` on any row aborts the run. -/
def enriquecer_dados (rows : List RawRow) : Option (List (List (String × Value))) :=
  rows.mapM enriquecerRow

/-- Value of one column of the enriched record built for `row`. -/
def enrichedField (row : RawRow) (k : String) : Option Value :=
  match enriquecerRow row with
  | some rec => List.lookup k rec
  | none => none

/-- Rendering of a value inside Python `str(registro)`. -/
def strOfValue : Value → String
  | Value.null => "None"
  | Value.bool true => "True"
  | Value.bool false => "False"
  | Value.int n => toString n
  | Value.str s => "\x27" ++ s ++ "\x27"

/-- Python `str(registro)` on a row dict, used as the fallback dedup key. -/
def strOfRow (r : RawRow) : String :=
  "\x7b" ++ String.intercalate ", "
    (r.map (fun kv => "\x27" ++ kv.1 ++ "\x27: " ++ strOfValue kv.2)) ++ "\x7d"

/-- Identity used by the dedup diagnostic: either the truthy `CHAVE_NF`
value itself, or the string rendering of the whole row. -/
def ChaveId := Sum Value String

instance : DecidableEq ChaveId := by
  unfold ChaveId
  infer_instance

/-- Model of `registro.get("CHAVE_NF") or str(registro)` (extract.py
line 127). -/
def chave_id (r : RawRow) : ChaveId :=
  match rawGet r "CHAVE_NF" with
  | some v => if pyTruthy v then Sum.inl v else Sum.inr (strOfRow r)
  | none => Sum.inr (strOfRow r)

/-- One step of the seen-keys bookkeeping (extract.py lines 125-130):
record the dedup identity of the row if it has not been seen. -/
def seenInsert (seen : List ChaveId) (r : RawRow) : List ChaveId :=
  if chave_id r ∈ seen then seen else seen ++ [chave_id r]

/-- Seen-keys set after scanning one page of rows. -/
def seenUpdate (seen : List ChaveId) (data : List RawRow) : List ChaveId :=
  data.foldl seenInsert seen

/-- Shape of one backend response to a `range` query: a missing/None
`data` attribute, an API-discovery (swagger) error document, or a page
of rows. -/
inductive Resp where
  | missing : Resp
  | swagger : Resp
  | rows : List RawRow → Resp

/-- Model of the pagination loop of `carregar_dados_supabase`
(extract.py lines 75-158), with the backend abstracted as a function
from request offset to response. Returns the accumulated rows and the
seen-keys diagnostic set, or the error raised when the table is missing
on the first page. Page size is 1000; after advancing the offset the
loop stops if the offset exceeds 1,000,000. -/
def carregarAux (pages : Nat → Resp) (offset : Nat) (acc : List RawRow)
    (seen : List ChaveId) : Except String (List RawRow × List ChaveId) :=
  match pages offset with
  | Resp.missing =>
    if offset = 0 then Except.ok ([], seen) else Except.ok (acc, seen)
  | Resp.swagger =>
    if offset = 0 then
      Except.error "Tabela nao encontrada. Verifique o nome da tabela no Supabase."
    else Except.ok (acc, seen)
  | Resp.rows data =>
    if data.isEmpty then Except.ok (acc, seen)
    else
      if data.length < 1000 then Except.ok (acc ++ data, seenUpdate seen data)
      else if offset + 1000 > 1000000 then Except.ok (acc ++ data, seenUpdate seen data)
      else carregarAux pages (offset + 1000) (acc ++ data) (seenUpdate seen data)
termination_by 1000001 - offset
decreasing_by omega

/-- The pages whose rows the loop appends, in fetch order, starting from
the given offset. -/
def fetchedPages (pages : Nat → Resp) (offset : Nat) : List (List RawRow) :=
  match pages offset with
  | Resp.missing => []
  | Resp.swagger => []
  | Resp.rows data =>
    if data.isEmpty then []
    else if data.length < 1000 then [data]
    else if offset + 1000 > 1000000 then [data]
    else data :: fetchedPages pages (offset + 1000)
termination_by 1000001 - offset
decreasing_by omega

/-- Entry call of the loop: offset 0, nothing accumulated, nothing seen. -/
def carregar_dados_supabase (pages : Nat → Resp) :
    Except String (List RawRow × List ChaveId) :=
  carregarAux pages 0 [] []

/-- Name of the output file (`CSV_FILE`, extract.py line 16). -/
def CSV_FILE : String := "dados_supabase.csv"

/-- Environment `main` runs in: the two required configuration values,
whether connecting succeeds, and the responses of the backend. -/
structure Env where
  supabase_url : Option String
  supabase_key : Option String
  connect_ok : Bool
  pages : Nat → Resp

/-- Python `not v` on an optional environment string: missing or empty. -/
def pyFalsyStr : Option String → Bool
  | none => true
  | some s => s == ""

/-- Observable outcome of one run of `main`. -/
inductive MainResult where
  | exitConfigError : MainResult
  | exitConnectError : MainResult
  | exitLoadError : String → MainResult
  | emptyCsv : String → MainResult
  | csvWritten : String → List (List (String × Value)) → MainResult
  | crashed : MainResult
  deriving DecidableEq

/-- Model of `main` (extract.py lines 217-278): validate configuration,
connect, fetch; an empty result set writes a header-less empty CSV at
`CSV_FILE` and returns successfully; otherwise the rows are enriched and
written to `CSV_FILE`. A load error exits with status 1; a `TypeError`
during enrichment crashes the process. -/
def mainRun (env : Env) : MainResult :=
  if pyFalsyStr env.supabase_url || pyFalsyStr env.supabase_key then
    MainResult.exitConfigError
  else if !env.connect_ok then
    MainResult.exitConnectError
  else
    match carregar_dados_supabase env.pages with
    | Except.error msg => MainResult.exitLoadError msg
    | Except.ok res =>
      if res.1.isEmpty then MainResult.emptyCsv CSV_FILE
      else
        match enriquecer_dados res.1 with
        | some recs => MainResult.csvWritten CSV_FILE recs
        | none => MainResult.crashed

/-! Helper lemmas about strings and digit values. -/

lemma toList_asString (l : List Char) : l.asString.toList = l := rfl

lemma length_asString (l : List Char) : l.asString.length = l.length := rfl

lemma string_length_toList (s : String) : s.toList.length = s.length := rfl

lemma foldl_digits_shift (b : List Char) :
    ∀ init : Nat,
      List.foldl (fun n c => n * 10 + (c.toNat - 48)) init b
        = init * 10 ^ b.length + digitsVal b := by
  induction b with
  | nil => intro init; simp [digitsVal]
  | cons c t ih =>
    intro init
    have h1 : digitsVal (c :: t)
        = List.foldl (fun n c => n * 10 + (c.toNat - 48)) (0 * 10 + (c.toNat - 48)) t := rfl
    rw [List.foldl_cons, ih, h1, ih (0 * 10 + (c.toNat - 48)), List.length_cons]
    ring

lemma digitsVal_append (a b : List Char) :
    digitsVal (a ++ b) = digitsVal a * 10 ^ b.length + digitsVal b := by
  unfold digitsVal
  rw [List.foldl_append]
  rw [foldl_digits_shift]
  rfl

lemma digitsVal_split3 (l : List Char) (h : l.length = 6) :
    digitsVal (l.take 3) * 1000 + digitsVal (l.drop 3) = digitsVal l := by
  conv_rhs => rw [← List.take_append_drop 3 l]
  rw [digitsVal_append]
  have h3 : (l.drop 3).length = 3 := by
    rw [List.length_drop, h]
  rw [h3]
  norm_num

/-- C1: for every key, `extrair_info_volume` returns
`(key[:-6], int(key[-6:][:3]), int(key[-6:][3:]))` exactly when the key
has at least 6 characters and its trailing 6 characters are all digits
(and then `current * 1000 + total` is the value of the trailing 6
digits); for every other key it returns `none`. -/
theorem extrair_info_volume_spec (chave : String) :
    (6 ≤ chave.toList.length →
     pyIsDigit (chave.toList.drop (chave.toList.length - 6)) = true →
      extrair_info_volume chave =
        some ((chave.toList.take (chave.toList.length - 6)).asString,
              digitsVal ((chave.toList.drop (chave.toList.length - 6)).take 3),
              digitsVal ((chave.toList.drop (chave.toList.length - 6)).drop 3)) ∧
      digitsVal ((chave.toList.drop (chave.toList.length - 6)).take 3) * 1000 +
        digitsVal ((chave.toList.drop (chave.toList.length - 6)).drop 3)
        = digitsVal (chave.toList.drop (chave.toList.length - 6))) ∧
    (chave.toList.length < 6 ∨
       pyIsDigit (chave.toList.drop (chave.toList.length - 6)) = false →
      extrair_info_volume chave = none) := by
  constructor
  · intro h6 hdig
    have hlt : ¬ chave.toList.length < 6 := by omega
    constructor
    · simp only [extrair_info_volume]
      rw [if_neg hlt, hdig]
      rfl
    · apply digitsVal_split3
      rw [List.length_drop]
      omega
  · intro h
    rcases h with h | h
    · simp only [extrair_info_volume]
      rw [if_pos h]
    · by_cases hlt : chave.toList.length < 6
      · simp only [extrair_info_volume]
        rw [if_pos hlt]
      · simp only [extrair_info_volume]
        rw [if_neg hlt, h]
        rfl

/-- Witness for C1: the key `"AB001002"` has trailing digits `001002`
and is parsed into base `"AB"`, current unit 1 and total units 2. -/
theorem extrair_info_volume_spec_witness :
    extrair_info_volume "AB001002" = some ("AB", 1, 2) := by
  have h := ((extrair_info_volume_spec "AB001002").1 (by decide) (by decide)).1
  exact h.trans (by decide)

/-- C2: for every key, `extrair_nf_cnpj` returns
`(key[0:9], key[12:26])` exactly when the key has at least 26 characters
and both of those slices are all digits; otherwise it returns `none`
(the Python pair `(None, None)`). -/
theorem extrair_nf_cnpj_spec (chave : String) :
    (26 ≤ chave.toList.length →
     pyIsDigit (chave.toList.take 9) = true →
     pyIsDigit ((chave.toList.drop 12).take 14) = true →
      extrair_nf_cnpj chave =
        some ((chave.toList.take 9).asString,
              ((chave.toList.drop 12).take 14).asString)) ∧
    (chave.toList.length < 26 ∨ pyIsDigit (chave.toList.take 9) = false ∨
       pyIsDigit ((chave.toList.drop 12).take 14) = false →
      extrair_nf_cnpj chave = none) := by
  constructor
  · intro h26 hnf hcnpj
    have hlt : ¬ chave.toList.length < 26 := by omega
    simp only [extrair_nf_cnpj]
    rw [if_neg hlt, toList_asString, toList_asString, hnf, hcnpj]
    rfl
  · intro h
    rcases h with h | h | h
    · simp only [extrair_nf_cnpj]
      rw [if_pos h]
    · by_cases hlt : chave.toList.length < 26
      · simp only [extrair_nf_cnpj]
        rw [if_pos hlt]
      · simp only [extrair_nf_cnpj]
        rw [if_neg hlt, toList_asString, toList_asString, h]
        rfl
    · by_cases hlt : chave.toList.length < 26
      · simp only [extrair_nf_cnpj]
        rw [if_pos hlt]
      · simp only [extrair_nf_cnpj]
        rw [if_neg hlt, toList_asString, toList_asString, h]
        simp

/-- Witness for C2: a 26-character key with numeric `[0,9)` and
`[12,26)` slices is split into its document number and entity
identifier. -/
theorem extrair_nf_cnpj_spec_witness :
    extrair_nf_cnpj "123456789XXX12345678901234"
      = some ("123456789", "12345678901234") := by
  have h := (extrair_nf_cnpj_spec "123456789XXX12345678901234").1
    (by decide) (by decide) (by decide)
  exact h.trans (by decide)

/-- Counterexample for C3: `formatar_cnpj` checks only the length, not
that the characters are digits, so a 14-character non-digit input is
formatted rather than returned unchanged as the claim states. -/
theorem formatar_cnpj_counterexample :
    formatar_cnpj "abcdefghijklmn" = "ab.cde.fgh/ijkl-mn" ∧
    ("abcdefghijklmn".toList.all Char.isDigit) = false ∧
    formatar_cnpj "abcdefghijklmn" ≠ "abcdefghijklmn" := by
  refine ⟨by decide, by decide, ?_⟩
  decide

/-- C3 (amended): `formatar_cnpj` renders any string of exactly 14
characters (digits or not) as `XX.XXX.XXX/XXXX-XX` and returns every
other input unchanged; in particular `"12345678901234"` becomes
`"12.345.678/9012-34"` and `"123"` is unchanged. -/
theorem formatar_cnpj_spec (cnpj : String) :
    (cnpj.length = 14 →
      formatar_cnpj cnpj =
        (cnpj.toList.take 2).asString ++ "." ++
        ((cnpj.toList.drop 2).take 3).asString ++ "." ++
        ((cnpj.toList.drop 5).take 3).asString ++ "/" ++
        ((cnpj.toList.drop 8).take 4).asString ++ "-" ++
        (cnpj.toList.drop 12).asString) ∧
    (cnpj.length ≠ 14 → formatar_cnpj cnpj = cnpj) := by
  constructor
  · intro h14
    have hne : ¬ (cnpj = "" ∨ cnpj.length ≠ 14) := by
      rintro (h | h)
      · rw [h] at h14
        exact absurd h14 (by decide)
      · exact h h14
    simp only [formatar_cnpj]
    rw [if_neg hne]
  · intro h
    simp only [formatar_cnpj]
    rw [if_pos (Or.inr h)]

/-- Witness for C3: the formatting branch at the 14-digit input
`"12345678901234"`. -/
theorem formatar_cnpj_spec_witness :
    formatar_cnpj "12345678901234" = "12.345.678/9012-34" := by
  have h := (formatar_cnpj_spec "12345678901234").1 (by decide)
  exact h.trans (by decide)

/-! Helper lemmas about the enriched record. -/

lemma enriquecerRow_eq (row : RawRow) (chave : String)
    (h : rowChave row = Value.str chave) :
    enriquecerRow row = some (enrichedRec row chave) := by
  unfold enriquecerRow
  rw [h]

lemma enrichedField_eq (row : RawRow) (chave : String) (k : String)
    (h : rowChave row = Value.str chave) :
    enrichedField row k = List.lookup k (enrichedRec row chave) := by
  unfold enrichedField
  rw [enriquecerRow_eq row chave h]

lemma lookup_NF (row : RawRow) (chave : String) :
    List.lookup "NF" (enrichedRec row chave)
      = some (valueOrNA (parseCampos chave).1) := rfl

lemma lookup_CNPJ (row : RawRow) (chave : String) :
    List.lookup "CNPJ" (enrichedRec row chave)
      = some (valueOrNA (parseCampos chave).2.1) := rfl

lemma lookup_CNPJ_Formatado (row : RawRow) (chave : String) :
    List.lookup "CNPJ_Formatado" (enrichedRec row chave)
      = some (match (parseCampos chave).2.1 with
              | some c => if c = "" then Value.str "N/A"
                          else Value.str (formatar_cnpj c)
              | none => Value.str "N/A") := rfl

lemma lookup_Volume_Atual (row : RawRow) (chave : String) :
    List.lookup "Volume_Atual" (enrichedRec row chave)
      = some (match (parseCampos chave).2.2 with
              | some iv => Value.int (Int.ofNat iv.2.1)
              | none => Value.null) := rfl

lemma lookup_Total_Volumes (row : RawRow) (chave : String) :
    List.lookup "Total_Volumes" (enrichedRec row chave)
      = some (match (parseCampos chave).2.2 with
              | some iv => Value.int (Int.ofNat iv.2.2)
              | none => Value.null) := rfl

lemma lookup_Base_NF (row : RawRow) (chave : String) :
    List.lookup "Base_NF" (enrichedRec row chave)
      = some (match (parseCampos chave).2.2 with
              | some iv => Value.str iv.1
              | none => Value.null) := rfl

lemma lookup_Inclusao_Manual (row : RawRow) (chave : String) :
    List.lookup "Inclusao_Manual" (enrichedRec row chave)
      = some (Value.bool (pyTruthy
          ((rawGet row "INCLUSAO_MANUAL").getD (Value.bool false)))) := rfl

lemma parseCampos_other (chave : String) (h : chave.length ≠ 48) :
    parseCampos chave = (none, none, none) := by
  by_cases h27 : chave.length = 27
  · simp only [parseCampos]
    rw [if_pos h27]
  · simp only [parseCampos]
    rw [if_neg h27, if_neg h]

lemma parseCampos_48_vol (chave : String) (h : chave.length = 48) :
    (parseCampos chave).2.2 = extrair_info_volume chave := by
  simp only [parseCampos]
  rw [if_neg (by omega : ¬ chave.length = 27), if_pos h]
  rcases hx : extrair_nf_cnpj chave with _ | p
  · rfl
  · rfl

lemma parseCampos_48_nf_some (chave : String) (nf cnpj : String)
    (h : chave.length = 48) (hx : extrair_nf_cnpj chave = some (nf, cnpj)) :
    (parseCampos chave).1 = some nf ∧ (parseCampos chave).2.1 = some cnpj := by
  simp only [parseCampos]
  rw [if_neg (by omega : ¬ chave.length = 27), if_pos h, hx]
  exact ⟨rfl, rfl⟩

lemma parseCampos_48_nf_none (chave : String)
    (h : chave.length = 48) (hx : extrair_nf_cnpj chave = none) :
    (parseCampos chave).1 = none ∧ (parseCampos chave).2.1 = none := by
  simp only [parseCampos]
  rw [if_neg (by omega : ¬ chave.length = 27), if_pos h, hx]
  exact ⟨rfl, rfl⟩

/-- Raw row exhibiting the counterexample to C4: its manual-inclusion
field holds the integer 1, not a boolean. -/
def c4row : RawRow :=
  [("CHAVE_NF", Value.str "abc"), ("INCLUSAO_MANUAL", Value.int 1)]

/-- Counterexample for C4: the code computes
`bool(row.get("INCLUSAO_MANUAL", False))`, Python truthiness, so a row
whose field holds the integer 1 — not the literal boolean true — still
gets `Inclusao_Manual = True`, contradicting the claim that any value
other than the literal boolean true yields false. -/
theorem inclusao_manual_counterexample :
    enrichedField c4row "Inclusao_Manual" = some (Value.bool true) ∧
    rawGet c4row "INCLUSAO_MANUAL" = some (Value.int 1) ∧
    Value.int 1 ≠ Value.bool true := by
  refine ⟨rfl, rfl, by decide⟩

/-- C4 (amended): the `Inclusao_Manual` field of the enriched record is
the Python truthiness of the `INCLUSAO_MANUAL` value of the row (a missing
field defaults to false): true exactly when the value is truthy, not
only when it is the literal boolean true. -/
theorem inclusao_manual_truthy (row : RawRow) (chave : String)
    (h : rowChave row = Value.str chave) :
    enrichedField row "Inclusao_Manual" =
      some (Value.bool (pyTruthy
        ((rawGet row "INCLUSAO_MANUAL").getD (Value.bool false)))) := by
  rw [enrichedField_eq row chave "Inclusao_Manual" h]
  exact lookup_Inclusao_Manual row chave

/-- Witness for C4 (amended): the integer-1 row evaluated through the
amended theorem. -/
theorem inclusao_manual_truthy_witness :
    enrichedField c4row "Inclusao_Manual" =
      some (Value.bool (pyTruthy
        ((rawGet c4row "INCLUSAO_MANUAL").getD (Value.bool false)))) :=
  inclusao_manual_truthy c4row "abc" rfl

/-- C5: for every row whose key string has length 27, and likewise
length neither 27 nor 48, the enriched record carries `NF = "N/A"`,
`CNPJ = "N/A"`, `CNPJ_Formatado = "N/A"` and null `Volume_Atual`,
`Total_Volumes` and `Base_NF`: the parsers contribute only at length
exactly 48. -/
theorem enrich_chave_desconhecida (row : RawRow) (chave : String)
    (h : rowChave row = Value.str chave)
    (hlen : chave.length = 27 ∨ (chave.length ≠ 27 ∧ chave.length ≠ 48)) :
    enrichedField row "NF" = some (Value.str "N/A") ∧
    enrichedField row "CNPJ" = some (Value.str "N/A") ∧
    enrichedField row "CNPJ_Formatado" = some (Value.str "N/A") ∧
    enrichedField row "Volume_Atual" = some Value.null ∧
    enrichedField row "Total_Volumes" = some Value.null ∧
    enrichedField row "Base_NF" = some Value.null := by
  have h48 : chave.length ≠ 48 := by
    rcases hlen with h27 | ⟨_, h48⟩
    · omega
    · exact h48
  have hp := parseCampos_other chave h48
  rw [enrichedField_eq row chave "NF" h, enrichedField_eq row chave "CNPJ" h,
      enrichedField_eq row chave "CNPJ_Formatado" h,
      enrichedField_eq row chave "Volume_Atual" h,
      enrichedField_eq row chave "Total_Volumes" h,
      enrichedField_eq row chave "Base_NF" h,
      lookup_NF, lookup_CNPJ, lookup_CNPJ_Formatado, lookup_Volume_Atual,
      lookup_Total_Volumes, lookup_Base_NF, hp]
  exact ⟨rfl, rfl, rfl, rfl, rfl, rfl⟩

/-- Raw row whose key is a 27-character opaque label. -/
def c5row : RawRow := [("CHAVE_NF", Value.str "ETIQ-0001-ABCDEFGHIJ-123456")]

/-- Witness for C5: a 27-character label row yields all-default derived
fields. -/
theorem enrich_chave_desconhecida_witness :
    enrichedField c5row "NF" = some (Value.str "N/A") ∧
    enrichedField c5row "CNPJ" = some (Value.str "N/A") ∧
    enrichedField c5row "CNPJ_Formatado" = some (Value.str "N/A") ∧
    enrichedField c5row "Volume_Atual" = some Value.null ∧
    enrichedField c5row "Total_Volumes" = some Value.null ∧
    enrichedField c5row "Base_NF" = some Value.null :=
  enrich_chave_desconhecida c5row "ETIQ-0001-ABCDEFGHIJ-123456" rfl
    (Or.inl (by decide))

lemma extrair_info_volume_of_digits (chave : String)
    (h6 : 6 ≤ chave.toList.length)
    (hdig : pyIsDigit (chave.toList.drop (chave.toList.length - 6)) = true) :
    extrair_info_volume chave =
      some ((chave.toList.take (chave.toList.length - 6)).asString,
            digitsVal ((chave.toList.drop (chave.toList.length - 6)).take 3),
            digitsVal ((chave.toList.drop (chave.toList.length - 6)).drop 3)) := by
  have hlt : ¬ chave.toList.length < 6 := by omega
  simp only [extrair_info_volume]
  rw [if_neg hlt, hdig]
  rfl

lemma extrair_nf_cnpj_shape (chave nf cnpj : String)
    (h : extrair_nf_cnpj chave = some (nf, cnpj)) :
    nf.length = 9 ∧ cnpj.length = 14 := by
  simp only [extrair_nf_cnpj] at h
  by_cases hlt : chave.toList.length < 26
  · rw [if_pos hlt] at h
    cases h
  · rw [if_neg hlt] at h
    split at h
    · cases h
    · injection h with h
      have h1 : (chave.toList.take 9).asString = nf := congrArg Prod.fst h
      have h2 : ((chave.toList.drop 12).take 14).asString = cnpj :=
        congrArg Prod.snd h
      constructor
      · rw [← h1, length_asString, List.length_take]
        omega
      · rw [← h2, length_asString, List.length_take, List.length_drop]
        omega

lemma length_ne_empty (s : String) (n : Nat) (hn : s.length = n) (h0 : n ≠ 0) :
    ¬ s = "" := by
  intro he
  rw [he] at hn
  exact h0 (by rw [← hn]; rfl)

/-- C10: the two parsers act independently on a 48-character key. If the
trailing 6 characters are digits but the document/entity slices are
rejected, the volume fields are still populated while `NF` and `CNPJ`
default to `"N/A"`; conversely, accepted slices with a non-digit
trailing 6 give parsed `NF`, `CNPJ` and formatted `CNPJ` with null
volume fields. -/
theorem parsers_independentes (row : RawRow) (chave : String)
    (h : rowChave row = Value.str chave) (hlen : chave.length = 48) :
    (pyIsDigit (chave.toList.drop 42) = true →
     extrair_nf_cnpj chave = none →
      enrichedField row "NF" = some (Value.str "N/A") ∧
      enrichedField row "CNPJ" = some (Value.str "N/A") ∧
      enrichedField row "CNPJ_Formatado" = some (Value.str "N/A") ∧
      enrichedField row "Volume_Atual"
        = some (Value.int (Int.ofNat (digitsVal ((chave.toList.drop 42).take 3)))) ∧
      enrichedField row "Total_Volumes"
        = some (Value.int (Int.ofNat (digitsVal ((chave.toList.drop 42).drop 3)))) ∧
      enrichedField row "Base_NF"
        = some (Value.str (chave.toList.take 42).asString)) ∧
    (extrair_info_volume chave = none →
     ∀ nf cnpj : String, extrair_nf_cnpj chave = some (nf, cnpj) →
      enrichedField row "NF" = some (Value.str nf) ∧
      enrichedField row "CNPJ" = some (Value.str cnpj) ∧
      enrichedField row "CNPJ_Formatado" = some (Value.str (formatar_cnpj cnpj)) ∧
      enrichedField row "Volume_Atual" = some Value.null ∧
      enrichedField row "Total_Volumes" = some Value.null ∧
      enrichedField row "Base_NF" = some Value.null) := by
  have h48l : chave.toList.length = 48 := by
    rw [string_length_toList]
    exact hlen
  constructor
  · intro hdig hnone
    have h42 : chave.toList.length - 6 = 42 := by omega
    have hvol := extrair_info_volume_of_digits chave (by omega)
      (by rw [h42]; exact hdig)
    rw [h42] at hvol
    obtain ⟨hn1, hn2⟩ := parseCampos_48_nf_none chave hlen hnone
    have hv2 := parseCampos_48_vol chave hlen
    rw [hvol] at hv2
    rw [enrichedField_eq row chave "NF" h, enrichedField_eq row chave "CNPJ" h,
        enrichedField_eq row chave "CNPJ_Formatado" h,
        enrichedField_eq row chave "Volume_Atual" h,
        enrichedField_eq row chave "Total_Volumes" h,
        enrichedField_eq row chave "Base_NF" h,
        lookup_NF, lookup_CNPJ, lookup_CNPJ_Formatado, lookup_Volume_Atual,
        lookup_Total_Volumes, lookup_Base_NF, hn1, hn2, hv2]
    exact ⟨rfl, rfl, rfl, rfl, rfl, rfl⟩
  · intro hvolnone nf cnpj hsome
    obtain ⟨hn1, hn2⟩ := parseCampos_48_nf_some chave nf cnpj hlen hsome
    have hv2 := parseCampos_48_vol chave hlen
    rw [hvolnone] at hv2
    obtain ⟨hl9, hl14⟩ := extrair_nf_cnpj_shape chave nf cnpj hsome
    have hnf : ¬ nf = "" := length_ne_empty nf 9 hl9 (by decide)
    have hcnpj : ¬ cnpj = "" := length_ne_empty cnpj 14 hl14 (by decide)
    rw [enrichedField_eq row chave "NF" h, enrichedField_eq row chave "CNPJ" h,
        enrichedField_eq row chave "CNPJ_Formatado" h,
        enrichedField_eq row chave "Volume_Atual" h,
        enrichedField_eq row chave "Total_Volumes" h,
        enrichedField_eq row chave "Base_NF" h,
        lookup_NF, lookup_CNPJ, lookup_CNPJ_Formatado, lookup_Volume_Atual,
        lookup_Total_Volumes, lookup_Base_NF, hn1, hn2, hv2]
    refine ⟨?_, ?_, ?_, rfl, rfl, rfl⟩
    · simp only [valueOrNA]
      rw [if_neg hnf]
    · simp only [valueOrNA]
      rw [if_neg hcnpj]
    · simp only []
      rw [if_neg hcnpj]

/-- A 48-character key whose trailing 6 characters are digits but whose
document slice starts with a letter. -/
def c10key : String := "A23456789XXX12345678901234ZZZZZZZZZZZZZZZZ001002"

/-- Raw row carrying `c10key`. -/
def c10row : RawRow := [("CHAVE_NF", Value.str c10key)]

/-- Witness for C10: on `c10key` the volume parser succeeds (current 1
of 2, base the first 42 characters) while `NF` and `CNPJ` default. -/
theorem parsers_independentes_witness :
    enrichedField c10row "NF" = some (Value.str "N/A") ∧
    enrichedField c10row "CNPJ" = some (Value.str "N/A") ∧
    enrichedField c10row "Volume_Atual" = some (Value.int 1) ∧
    enrichedField c10row "Total_Volumes" = some (Value.int 2) ∧
    enrichedField c10row "Base_NF"
      = some (Value.str "A23456789XXX12345678901234ZZZZZZZZZZZZZZZZ") := by
  have h := (parsers_independentes c10row c10key rfl (by decide)).1
    (by decide) (by decide)
  exact ⟨h.1, h.2.1, h.2.2.2.1.trans (by decide), h.2.2.2.2.1.trans (by decide),
    h.2.2.2.2.2.trans (by decide)⟩

/-- C8: every record the enricher produces has exactly the eleven output
columns in order, and the computed fields hold the `"N/A"` marker or
null — never absent — whenever the corresponding parse does not happen
(key length other than 48) or fails. -/
theorem enrich_colunas (row : RawRow) (rec : List (String × Value))
    (h : enriquecerRow row = some rec) :
    rec.map Prod.fst = ["OF", "CHAVE_NF", "NF", "CNPJ", "CNPJ_Formatado",
      "Volume_Atual", "Total_Volumes", "Base_NF", "Bipado_em",
      "Removido_em", "Inclusao_Manual"] ∧
    (∀ chave : String, rowChave row = Value.str chave →
      ((chave.length ≠ 48 ∨ extrair_nf_cnpj chave = none) →
        List.lookup "NF" rec = some (Value.str "N/A") ∧
        List.lookup "CNPJ" rec = some (Value.str "N/A") ∧
        List.lookup "CNPJ_Formatado" rec = some (Value.str "N/A")) ∧
      ((chave.length ≠ 48 ∨ extrair_info_volume chave = none) →
        List.lookup "Volume_Atual" rec = some Value.null ∧
        List.lookup "Total_Volumes" rec = some Value.null ∧
        List.lookup "Base_NF" rec = some Value.null)) := by
  rcases hrc : rowChave row with _ | b | n | c
  · rw [enriquecerRow, hrc] at h
    cases h
  · rw [enriquecerRow, hrc] at h
    cases h
  · rw [enriquecerRow, hrc] at h
    cases h
  · rw [enriquecerRow_eq row c hrc] at h
    cases h
    constructor
    · rfl
    · intro chave hch
      have hcc : c = chave := by injection hch
      subst hcc
      constructor
      · intro hd
        have hpair : (parseCampos c).1 = none ∧ (parseCampos c).2.1 = none := by
          rcases hd with h48 | hnone
          · rw [parseCampos_other c h48]
            exact ⟨rfl, rfl⟩
          · by_cases h48 : c.length = 48
            · exact parseCampos_48_nf_none c h48 hnone
            · rw [parseCampos_other c h48]
              exact ⟨rfl, rfl⟩
        rw [lookup_NF, lookup_CNPJ, lookup_CNPJ_Formatado, hpair.1, hpair.2]
        exact ⟨rfl, rfl, rfl⟩
      · intro hd
        have hvol : (parseCampos c).2.2 = none := by
          rcases hd with h48 | hnone
          · rw [parseCampos_other c h48]
          · by_cases h48 : c.length = 48
            · rw [parseCampos_48_vol c h48]
              exact hnone
            · rw [parseCampos_other c h48]
        rw [lookup_Volume_Atual, lookup_Total_Volumes, lookup_Base_NF, hvol]
        exact ⟨rfl, rfl, rfl⟩

/-- Raw row with an empty key string, exercising the unrecognized-length
branch of the enricher. -/
def c8row : RawRow := [("CHAVE_NF", Value.str "")]

/-- Witness for C8: the column list of the record built for `c8row`. -/
theorem enrich_colunas_witness :
    (enrichedRec c8row "").map Prod.fst = ["OF", "CHAVE_NF", "NF", "CNPJ",
      "CNPJ_Formatado", "Volume_Atual", "Total_Volumes", "Base_NF",
      "Bipado_em", "Removido_em", "Inclusao_Manual"] :=
  (enrich_colunas c8row (enrichedRec c8row "") rfl).1

/-! Branch equations for the pagination loop and its page trace. -/

lemma carregarAux_missing0 (pages : Nat → Resp) (acc : List RawRow)
    (seen : List ChaveId) (hp : pages 0 = Resp.missing) :
    carregarAux pages 0 acc seen = Except.ok ([], seen) := by
  rw [carregarAux, hp]
  rfl

lemma carregarAux_missing (pages : Nat → Resp) (offset : Nat)
    (acc : List RawRow) (seen : List ChaveId)
    (hp : pages offset = Resp.missing) (h : ¬ offset = 0) :
    carregarAux pages offset acc seen = Except.ok (acc, seen) := by
  rw [carregarAux, hp]
  exact if_neg h

lemma carregarAux_swagger0 (pages : Nat → Resp) (acc : List RawRow)
    (seen : List ChaveId) (hp : pages 0 = Resp.swagger) :
    carregarAux pages 0 acc seen =
      Except.error "Tabela nao encontrada. Verifique o nome da tabela no Supabase." := by
  rw [carregarAux, hp]
  rfl

lemma carregarAux_swagger (pages : Nat → Resp) (offset : Nat)
    (acc : List RawRow) (seen : List ChaveId)
    (hp : pages offset = Resp.swagger) (h : ¬ offset = 0) :
    carregarAux pages offset acc seen = Except.ok (acc, seen) := by
  rw [carregarAux, hp]
  exact if_neg h

lemma carregarAux_rows_empty (pages : Nat → Resp) (offset : Nat)
    (acc : List RawRow) (seen : List ChaveId) (data : List RawRow)
    (hp : pages offset = Resp.rows data) (hemp : data.isEmpty = true) :
    carregarAux pages offset acc seen = Except.ok (acc, seen) := by
  rw [carregarAux, hp]
  exact if_pos hemp

lemma carregarAux_rows_short (pages : Nat → Resp) (offset : Nat)
    (acc : List RawRow) (seen : List ChaveId) (data : List RawRow)
    (hp : pages offset = Resp.rows data) (hemp : ¬ data.isEmpty = true)
    (hlt : data.length < 1000) :
    carregarAux pages offset acc seen
      = Except.ok (acc ++ data, seenUpdate seen data) := by
  rw [carregarAux, hp]
  exact (if_neg hemp).trans (if_pos hlt)

lemma carregarAux_rows_cap (pages : Nat → Resp) (offset : Nat)
    (acc : List RawRow) (seen : List ChaveId) (data : List RawRow)
    (hp : pages offset = Resp.rows data) (hemp : ¬ data.isEmpty = true)
    (hge : ¬ data.length < 1000) (hcap : offset + 1000 > 1000000) :
    carregarAux pages offset acc seen
      = Except.ok (acc ++ data, seenUpdate seen data) := by
  rw [carregarAux, hp]
  exact (if_neg hemp).trans ((if_neg hge).trans (if_pos hcap))

lemma carregarAux_rows_next (pages : Nat → Resp) (offset : Nat)
    (acc : List RawRow) (seen : List ChaveId) (data : List RawRow)
    (hp : pages offset = Resp.rows data) (hemp : ¬ data.isEmpty = true)
    (hge : ¬ data.length < 1000) (hncap : ¬ offset + 1000 > 1000000) :
    carregarAux pages offset acc seen
      = carregarAux pages (offset + 1000) (acc ++ data) (seenUpdate seen data) := by
  rw [carregarAux, hp]
  exact (if_neg hemp).trans ((if_neg hge).trans (if_neg hncap))

lemma fetchedPages_missing (pages : Nat → Resp) (x : Nat)
    (hp : pages x = Resp.missing) : fetchedPages pages x = [] := by
  rw [fetchedPages, hp]

lemma fetchedPages_swagger (pages : Nat → Resp) (x : Nat)
    (hp : pages x = Resp.swagger) : fetchedPages pages x = [] := by
  rw [fetchedPages, hp]

lemma fetchedPages_empty (pages : Nat → Resp) (x : Nat) (data : List RawRow)
    (hp : pages x = Resp.rows data) (hemp : data.isEmpty = true) :
    fetchedPages pages x = [] := by
  rw [fetchedPages, hp]
  exact if_pos hemp

lemma fetchedPages_short (pages : Nat → Resp) (x : Nat) (data : List RawRow)
    (hp : pages x = Resp.rows data) (hemp : ¬ data.isEmpty = true)
    (hlt : data.length < 1000) : fetchedPages pages x = [data] := by
  rw [fetchedPages, hp]
  exact (if_neg hemp).trans (if_pos hlt)

lemma fetchedPages_cap (pages : Nat → Resp) (x : Nat) (data : List RawRow)
    (hp : pages x = Resp.rows data) (hemp : ¬ data.isEmpty = true)
    (hge : ¬ data.length < 1000) (hcap : x + 1000 > 1000000) :
    fetchedPages pages x = [data] := by
  rw [fetchedPages, hp]
  exact (if_neg hemp).trans ((if_neg hge).trans (if_pos hcap))

lemma fetchedPages_next (pages : Nat → Resp) (x : Nat) (data : List RawRow)
    (hp : pages x = Resp.rows data) (hemp : ¬ data.isEmpty = true)
    (hge : ¬ data.length < 1000) (hncap : ¬ x + 1000 > 1000000) :
    fetchedPages pages x = data :: fetchedPages pages (x + 1000) := by
  rw [fetchedPages, hp]
  exact (if_neg hemp).trans ((if_neg hge).trans (if_neg hncap))

lemma carregarAux_rows_eq (pages : Nat → Resp) (offset : Nat)
    (acc : List RawRow) (seen : List ChaveId) :
    ∀ res : List RawRow × List ChaveId, (offset = 0 → acc = []) →
      carregarAux pages offset acc seen = Except.ok res →
      res.1 = acc ++ (fetchedPages pages offset).flatten := by
  induction offset, acc, seen using carregarAux.induct pages with
  | case1 acc seen hp =>
    intro res h0 hc
    rw [carregarAux_missing0 pages acc seen hp] at hc
    cases hc
    rw [fetchedPages_missing pages 0 hp, h0 rfl]
    rfl
  | case2 offset acc seen hp hne0 =>
    intro res h0 hc
    rw [carregarAux_missing pages offset acc seen hp hne0] at hc
    cases hc
    rw [fetchedPages_missing pages offset hp]
    simp
  | case3 acc seen hp =>
    intro res h0 hc
    rw [carregarAux_swagger0 pages acc seen hp] at hc
    cases hc
  | case4 offset acc seen hp hne0 =>
    intro res h0 hc
    rw [carregarAux_swagger pages offset acc seen hp hne0] at hc
    cases hc
    rw [fetchedPages_swagger pages offset hp]
    simp
  | case5 offset acc seen data hp hemp =>
    intro res h0 hc
    rw [carregarAux_rows_empty pages offset acc seen data hp hemp] at hc
    cases hc
    rw [fetchedPages_empty pages offset data hp hemp]
    simp
  | case6 offset acc seen data hp hemp hlt =>
    intro res h0 hc
    rw [carregarAux_rows_short pages offset acc seen data hp hemp hlt] at hc
    cases hc
    rw [fetchedPages_short pages offset data hp hemp hlt]
    simp
  | case7 offset acc seen data hp hemp hge hcap =>
    intro res h0 hc
    rw [carregarAux_rows_cap pages offset acc seen data hp hemp hge hcap] at hc
    cases hc
    rw [fetchedPages_cap pages offset data hp hemp hge hcap]
    simp
  | case8 offset acc seen data hp hemp hge hncap ih =>
    intro res h0 hc
    rw [carregarAux_rows_next pages offset acc seen data hp hemp hge hncap] at hc
    have hres := ih res (fun hz => absurd hz (by omega)) hc
    rw [fetchedPages_next pages offset data hp hemp hge hncap]
    rw [hres]
    simp

/-- C7: deduplication is diagnostic only — whenever the loop returns
successfully, the returned row sequence is exactly the concatenation of
the fetched pages in fetch order; the seen-keys set never removes a
row. -/
theorem dedup_diagnostico (pages : Nat → Resp)
    (res : List RawRow × List ChaveId)
    (h : carregar_dados_supabase pages = Except.ok res) :
    res.1 = (fetchedPages pages 0).flatten := by
  have h2 := carregarAux_rows_eq pages 0 [] [] res (fun _ => rfl) h
  simpa using h2

/-- Raw row used by the pagination witnesses. -/
def c7row : RawRow := [("CHAVE_NF", Value.str "K"), ("OF", Value.int 7)]

/-- Backend returning the same duplicated short page forever. -/
def c7pages : Nat → Resp := fun _ => Resp.rows [c7row, c7row]

/-- Witness for C7: a page holding the same row twice is returned with
both copies intact (the duplicate is only counted, not dropped). -/
theorem dedup_diagnostico_witness :
    ([c7row, c7row] : List RawRow) = (fetchedPages c7pages 0).flatten := by
  have hc : carregar_dados_supabase c7pages
      = Except.ok ([c7row, c7row], seenUpdate [] [c7row, c7row]) := by
    rw [carregar_dados_supabase,
      carregarAux_rows_short c7pages 0 [] [] [c7row, c7row] rfl (by decide) (by decide)]
    rfl
  exact dedup_diagnostico c7pages
    ([c7row, c7row], seenUpdate [] [c7row, c7row]) hc

lemma fetchedPages_bound (pages : Nat → Resp) (offset : Nat) :
    offset ≤ 1000000 → (fetchedPages pages offset).length * 1000 ≤ 1001000 - offset := by
  induction offset using fetchedPages.induct pages with
  | case1 x hp =>
    intro hx
    rw [fetchedPages_missing pages x hp]
    simp
  | case2 x hp =>
    intro hx
    rw [fetchedPages_swagger pages x hp]
    simp
  | case3 x data hp hemp =>
    intro hx
    rw [fetchedPages_empty pages x data hp hemp]
    simp
  | case4 x data hp hemp hlt =>
    intro hx
    rw [fetchedPages_short pages x data hp hemp hlt]
    simp
    omega
  | case5 x data hp hemp hge hcap =>
    intro hx
    rw [fetchedPages_cap pages x data hp hemp hge hcap]
    simp
    omega
  | case6 x data hp hemp hge hncap ih =>
    intro hx
    rw [fetchedPages_next pages x data hp hemp hge hncap]
    have h2 := ih (by omega)
    simp only [List.length_cons]
    omega

/-- C6: the pagination loop terminates on every backend. The number of
pages it consumes is at most 1001 (the 1,000,000 offset cap), any page
shorter than the page size of 1000 is the last one consumed, and when
the first page is already short the loop finishes with exactly that
page after a single iteration. -/
theorem paginacao_termina (pages : Nat → Resp) :
    (fetchedPages pages 0).length ≤ 1001 ∧
    (∀ offset data, pages offset = Resp.rows data → data.length < 1000 →
      (fetchedPages pages offset).length ≤ 1) ∧
    (∀ data, pages 0 = Resp.rows data → data.length < 1000 →
      carregar_dados_supabase pages = Except.ok (data, seenUpdate [] data)) := by
  refine ⟨?_, ?_, ?_⟩
  · have h := fetchedPages_bound pages 0 (by omega)
    omega
  · intro offset data hp hlt
    by_cases hemp : data.isEmpty = true
    · rw [fetchedPages_empty pages offset data hp hemp]
      simp
    · rw [fetchedPages_short pages offset data hp hemp hlt]
      simp
  · intro data hp hlt
    by_cases hemp : data.isEmpty = true
    · have hd : data = [] := List.isEmpty_iff.mp hemp
      subst hd
      rw [carregar_dados_supabase,
        carregarAux_rows_empty pages 0 [] [] [] hp hemp]
      rfl
    · rw [carregar_dados_supabase,
        carregarAux_rows_short pages 0 [] [] data hp hemp hlt]
      rw [List.nil_append]

/-- Backend returning one short page. -/
def c6pages : Nat → Resp := fun _ => Resp.rows [c7row]

/-- Witness for C6: a first page of one row ends the loop at once with
exactly that row. -/
theorem paginacao_termina_witness :
    carregar_dados_supabase c6pages
      = Except.ok ([c7row], seenUpdate [] [c7row]) :=
  (paginacao_termina c6pages).2.2 [c7row] rfl (by decide)

/-- C9: with the configuration present and the connection up, a fetch
that yields an empty result set is not an error — `main` writes the
empty header-less CSV at `dados_supabase.csv` and returns successfully
(exit status 0) instead of failing. -/
theorem main_csv_vazio (env : Env) (seen : List ChaveId)
    (hurl : pyFalsyStr env.supabase_url = false)
    (hkey : pyFalsyStr env.supabase_key = false)
    (hconn : env.connect_ok = true)
    (hfetch : carregar_dados_supabase env.pages = Except.ok ([], seen)) :
    mainRun env = MainResult.emptyCsv CSV_FILE := by
  rw [mainRun, hurl, hkey, hconn, hfetch]
  rfl

/-- Environment whose backend immediately reports an empty table. -/
def c9env : Env :=
  { supabase_url := some "https://example.supabase.co"
    supabase_key := some "anon-key"
    connect_ok := true
    pages := fun _ => Resp.rows [] }

/-- Witness for C9: the empty-table environment produces the empty-CSV
success outcome. -/
theorem main_csv_vazio_witness :
    mainRun c9env = MainResult.emptyCsv CSV_FILE := by
  have hfetch : carregar_dados_supabase c9env.pages = Except.ok ([], []) := by
    rw [carregar_dados_supabase,
      carregarAux_rows_empty c9env.pages 0 [] [] [] rfl rfl]
  exact main_csv_vazio c9env [] rfl rfl rfl hfetch

end Extract
